import Mathlib

/-!
Shallow embedding of the `opennexus` Python bootstrap launcher
(`src/wrappers/python/opennexus/src/opennexus/__init__.py`).

Filesystem paths are modelled as lists of path components (the result of
joining with the platform separator).  The ambient process state —
`sys.argv`, `platform.system()`, `platform.machine()`, `os.name`,
`os.environ`, `Path.home()`, `shutil.which` and the HTTP transport — is
packaged into an `Env` record; the readable filesystem predicates
(`Path.exists`, `Path.is_file`, `os.access(..., X_OK)`, `Path.resolve`)
into an `FS` record.  Side effects (directory creation, the HTTP GET,
writing the body, `chmod`, the progress notice) are recorded as an
explicit event trace, so frame conditions ("no network call", "no
partial state") are statements about the trace.
-/

namespace Opennexus

/-- A filesystem path, as the list of its components. -/
abbrev Path := List String

/-- Result of `urllib.request.urlopen`: an HTTP status and the response body. -/
structure HttpResponse where
  status : Nat
  body : List Nat
deriving DecidableEq, Repr

/-- Readable filesystem state queried by the launcher. `resolve` returns
`none` when `Path.resolve()` raises `OSError`. -/
structure FS where
  pathExists : Path → Bool
  isFile : Path → Bool
  isExecutable : Path → Bool
  resolve : Path → Option Path

/-- The ambient process environment of one launcher invocation. -/
structure Env where
  argv : List String
  system : String
  machine : String
  osName : String
  getenv : String → Option String
  home : Path
  which : String → Option String
  strToPath : String → Path
  http : String → HttpResponse
  packageVersion : Option String

/-- `VERSION`: package metadata when available, else the hardcoded fallback. -/
def Env.VERSION (env : Env) : String :=
  env.packageVersion.getD "0.1.5"

/-- `RELEASE_BASE_URL = os.environ.get("OPENNEXUS_RELEASE_BASE_URL", default)`.
`os.environ.get` returns the stored value whenever the key is present,
even when that value is the empty string. -/
def Env.RELEASE_BASE_URL (env : Env) : String :=
  (env.getenv "OPENNEXUS_RELEASE_BASE_URL").getD
    ("https://github.com/Alpha-Innovation-Labs/opennexus/releases/download/v"
      ++ env.VERSION)

/-- Errors raised by the launcher (both are `RuntimeError` in the source). -/
inductive LauncherError where
  | unsupportedPlatform (system machine : String)
  | downloadFailed (status : Nat) (url : String)
deriving DecidableEq, Repr

/-- Observable side effects, in program order. -/
inductive Event where
  | mkdirParents (p : Path)
  | fetch (url : String)
  | writeBytes (p : Path) (data : List Nat)
  | chmod (p : Path) (mode : Nat)
  | notice (msg : String)
deriving DecidableEq, Repr

/-- `_same_file`: compare resolved canonical paths, treating a resolution
failure (`OSError`) as "not the same". -/
def _same_file (fs : FS) (first second : Path) : Bool :=
  match fs.resolve first, fs.resolve second with
  | some a, some b => a == b
  | _, _ => false

/-- `Path(sys.argv[0])`, the running launcher script. -/
def script_path_of (env : Env) : Path :=
  env.strToPath (env.argv.headD "")

/-- `Path.home() / ".cargo" / "bin" / "opennexus"`. -/
def cargo_binary_of (env : Env) : Path :=
  env.home ++ [".cargo", "bin", "opennexus"]

/-- The second step of `_find_installed_binary`: `shutil.which("opennexus")`,
rejecting a falsy result and a result that resolves to the launcher. -/
def _find_on_search_path (env : Env) (fs : FS) : Option Path :=
  match env.which "opennexus" with
  | none => none
  | some located =>
    if located = "" then none
    else
      let located_path := env.strToPath located
      if _same_file fs located_path (script_path_of env) then none
      else some located_path

/-- `_find_installed_binary`: the per-user cargo tool directory first, then
the command search path, excluding the running launcher itself. -/
def _find_installed_binary (env : Env) (fs : FS) : Option Path :=
  let script_path := script_path_of env
  let cargo_binary := cargo_binary_of env
  if fs.pathExists cargo_binary && fs.isFile cargo_binary
      && fs.isExecutable cargo_binary
      && !(_same_file fs cargo_binary script_path) then
    some cargo_binary
  else
    _find_on_search_path env fs

/-- The fixed platform table of `_resolve_target`. -/
def targets : List ((String × String) × (String × String)) :=
  [ (("darwin", "arm64"), ("aarch64-apple-darwin", "opennexus"))
  , (("darwin", "x86_64"), ("x86_64-apple-darwin", "opennexus"))
  , (("linux", "x86_64"), ("x86_64-unknown-linux-gnu", "opennexus"))
  , (("linux", "aarch64"), ("aarch64-unknown-linux-gnu", "opennexus"))
  , (("windows", "amd64"), ("x86_64-pc-windows-msvc", "opennexus.exe")) ]

/-- ASCII lower-casing of one character, as Python's `str.lower` acts on
the ASCII range of platform names. -/
def lowerChar (c : Char) : Char :=
  if 'A' ≤ c ∧ c ≤ 'Z' then Char.ofNat (c.toNat + 32) else c

/-- `str.lower()` on ASCII strings such as `platform.system()` /
`platform.machine()` values. -/
def lowerStr (s : String) : String :=
  String.mk (s.data.map lowerChar)

/-- `_resolve_target`: lower-case the system and machine names, then do an
exact lookup in the fixed table. -/
def _resolve_target (system machine : String) :
    Except LauncherError (String × String) :=
  let s := lowerStr system
  let m := lowerStr machine
  match targets.lookup (s, m) with
  | some target => .ok target
  | none => .error (.unsupportedPlatform s m)

/-- `_cache_root`: `LOCALAPPDATA` (Windows) or `XDG_CACHE_HOME` (elsewhere)
when set to a truthy (non-empty) value, else the home-directory fallback. -/
def _cache_root (env : Env) : Path :=
  if env.osName = "nt" then
    match env.getenv "LOCALAPPDATA" with
    | some v => if v = "" then env.home ++ ["AppData", "Local"]
                else env.strToPath v
    | none => env.home ++ ["AppData", "Local"]
  else
    match env.getenv "XDG_CACHE_HOME" with
    | some v => if v = "" then env.home ++ [".cache"]
                else env.strToPath v
    | none => env.home ++ [".cache"]

/-- `_download`: one GET; non-200 status fails with the status and URL,
200 writes the full body to the destination. -/
def _download (env : Env) (url : String) (destination : Path) :
    Except LauncherError Unit × List Event :=
  let response := env.http url
  if response.status ≠ 200 then
    (.error (.downloadFailed response.status url), [.fetch url])
  else
    (.ok (), [.fetch url, .writeBytes destination response.body])

/-- `install_dir = _cache_root() / "opennexus" / "bin" / VERSION / target_triple`. -/
def install_dir_of (cache_root : Path) (ver triple : String) : Path :=
  cache_root ++ ["opennexus", "bin", ver, triple]

/-- `binary_path = install_dir / binary_name`. -/
def binary_path_of (cache_root : Path) (ver : String) (t : String × String) :
    Path :=
  install_dir_of cache_root ver t.1 ++ [t.2]

/-- `str.endswith`, via the character lists of the two strings. -/
def strEndsWith (s suff : String) : Bool :=
  suff.data.isSuffixOf s.data

/-- `asset_name`: `opennexus-{triple}` plus `.exe` when the binary name
ends in `.exe`. -/
def asset_name_of (target_triple binary_name : String) : String :=
  "opennexus-" ++ target_triple
    ++ (if strEndsWith binary_name ".exe" then ".exe" else "")

/-- `asset_url = f"RELEASE_BASE_URL/asset_name"`. -/
def asset_url_of (env : Env) (t : String × String) : String :=
  env.RELEASE_BASE_URL ++ "/" ++ asset_name_of t.1 t.2

/-- The progress notice printed to stderr before downloading. -/
def progress_notice (ver triple : String) : String :=
  "`opennexus` binary not found in PATH. Downloading " ++ ver
    ++ " for " ++ triple ++ "..."

/-- `_ensure_managed_binary`: resolve the platform, compute the cache path,
create parent directories, return on cache hit, else download and (off
Windows) mark executable. -/
def _ensure_managed_binary (env : Env) (fs : FS) :
    Except LauncherError Path × List Event :=
  match _resolve_target env.system env.machine with
  | .error e => (.error e, [])
  | .ok target =>
    let install_dir := install_dir_of (_cache_root env) env.VERSION target.1
    let binary_path := binary_path_of (_cache_root env) env.VERSION target
    let ev0 : List Event := [.mkdirParents install_dir]
    if fs.pathExists binary_path && fs.isExecutable binary_path then
      (.ok binary_path, ev0)
    else
      let asset_url := asset_url_of env target
      let ev1 := ev0 ++ [Event.notice (progress_notice env.VERSION target.1)]
      match _download env asset_url binary_path with
      | (.error e, dev) => (.error e, ev1 ++ dev)
      | (.ok _, dev) =>
        let ev2 := ev1 ++ dev
          ++ (if env.osName ≠ "nt" then [Event.chmod binary_path 0o755] else [])
        (.ok binary_path, ev2)

/-- The final `os.execv(binary, args)` call: the binary and argument vector
with which the process image is replaced. -/
structure ExecCall where
  binary : Path
  args : List String
deriving DecidableEq, Repr

/-- `main`: build the argument vector, locate or provision a binary, exec. -/
def main (env : Env) (fs : FS) : Except LauncherError ExecCall × List Event :=
  let args := "opennexus" :: env.argv.drop 1
  match _find_installed_binary env fs with
  | some binary => (.ok ⟨binary, args⟩, [])
  | none =>
    let shared := _ensure_managed_binary env fs
    (shared.1.map (fun binary => ⟨binary, args⟩), shared.2)

/-! Concrete sample states used by the witness theorems below. -/

/-- A filesystem in which every path exists, is a regular executable file,
and resolves to one fixed canonical path. -/
def fsAllSame : FS :=
  { pathExists := fun _ => true
    isFile := fun _ => true
    isExecutable := fun _ => true
    resolve := fun _ => some ["canon", "opennexus"] }

/-- An empty filesystem: nothing exists and resolution fails. -/
def fsEmpty : FS :=
  { pathExists := fun _ => false
    isFile := fun _ => false
    isExecutable := fun _ => false
    resolve := fun _ => none }

/-- A Linux/x86_64 invocation with no environment overrides, nothing on the
command search path, and an HTTP transport answering 404. -/
def baseEnv : Env :=
  { argv := ["/usr/local/bin/opennexus", "--version"]
    system := "Linux"
    machine := "x86_64"
    osName := "posix"
    getenv := fun _ => none
    home := ["home", "user"]
    which := fun _ => none
    strToPath := fun s => [s]
    http := fun _ => ⟨404, []⟩
    packageVersion := none }

/-- Same as `baseEnv` but `shutil.which` finds the launcher script itself. -/
def envSelf : Env :=
  { baseEnv with which := fun _ => some "/usr/local/bin/opennexus" }

/-- Same as `baseEnv` but the HTTP transport answers 200 with body bytes. -/
def env200 : Env :=
  { baseEnv with http := fun _ => ⟨200, [1, 2, 3]⟩ }

/-- An unsupported (system, machine) pair. -/
def envPlan9 : Env :=
  { baseEnv with system := "Plan9", machine := "mips" }

/-- Same as `baseEnv` but every environment variable is set to `""`. -/
def envEmptyVars : Env :=
  { baseEnv with getenv := fun _ => some "" }

/-- A Windows invocation with every environment variable set to `""`. -/
def envWinEmpty : Env :=
  { baseEnv with osName := "nt", getenv := fun _ => some "" }

/-! Theorems about the embedded launcher. -/

/-- Helper: when every located command resolves to the launcher itself, the
search-path step reports nothing. -/
theorem find_on_search_path_none (env : Env) (fs : FS)
    (hwhich : ∀ located, env.which "opennexus" = some located →
      _same_file fs (env.strToPath located) (script_path_of env) = true) :
    _find_on_search_path env fs = none := by
  unfold _find_on_search_path
  cases h : env.which "opennexus" with
  | none => rfl
  | some located =>
    by_cases he : located = ""
    · simp [he]
    · simp [he, hwhich located h]

/-- Claim C1: if every candidate `_find_installed_binary` discovers — the
cargo tool-directory entry, when it exists as an executable regular file,
and the command-search-path result — resolves to the same canonical file as
the running launcher script, then `_find_installed_binary` returns `none`. -/
theorem find_installed_binary_self_exclusion (env : Env) (fs : FS)
    (hcargo : (fs.pathExists (cargo_binary_of env) && fs.isFile (cargo_binary_of env)
        && fs.isExecutable (cargo_binary_of env)) = true →
      _same_file fs (cargo_binary_of env) (script_path_of env) = true)
    (hwhich : ∀ located, env.which "opennexus" = some located →
      _same_file fs (env.strToPath located) (script_path_of env) = true) :
    _find_installed_binary env fs = none := by
  have h2 := find_on_search_path_none env fs hwhich
  have hcond : (fs.pathExists (cargo_binary_of env) && fs.isFile (cargo_binary_of env)
      && fs.isExecutable (cargo_binary_of env)
      && !(_same_file fs (cargo_binary_of env) (script_path_of env))) = false := by
    by_cases hq : (fs.pathExists (cargo_binary_of env) && fs.isFile (cargo_binary_of env)
        && fs.isExecutable (cargo_binary_of env)) = true
    · rw [hq, hcargo hq]
      rfl
    · rw [Bool.not_eq_true] at hq
      rw [hq, Bool.false_and]
  unfold _find_installed_binary
  simp only [hcond, Bool.false_eq_true, if_false]
  exact h2

/-- Witness for C1: a concrete state where both candidates resolve to the
launcher's own canonical file, and the locator reports not-found. -/
theorem find_installed_binary_self_exclusion_witness :
    _find_installed_binary envSelf fsAllSame = none :=
  find_installed_binary_self_exclusion envSelf fsAllSame
    (fun _ => rfl) (fun _ _ => rfl)

/-- Claim C2: the platform table maps each supported pair — macOS/Apple
silicon (darwin/arm64), macOS/Intel (darwin/x86_64), Linux/x86_64,
Linux/arm64 (aarch64), Windows/x86_64 (amd64) — to exactly the documented
(target-triple, binary-name) pair, and every pair absent from the table
fails with `unsupportedPlatform` carrying the (lower-cased) pair. -/
theorem resolve_target_table_spec :
    _resolve_target "darwin" "arm64" = .ok ("aarch64-apple-darwin", "opennexus") ∧
    _resolve_target "darwin" "x86_64" = .ok ("x86_64-apple-darwin", "opennexus") ∧
    _resolve_target "linux" "x86_64" = .ok ("x86_64-unknown-linux-gnu", "opennexus") ∧
    _resolve_target "linux" "aarch64" = .ok ("aarch64-unknown-linux-gnu", "opennexus") ∧
    _resolve_target "windows" "amd64" = .ok ("x86_64-pc-windows-msvc", "opennexus.exe") ∧
    ∀ system machine,
      targets.lookup (lowerStr system, lowerStr machine) = none →
      _resolve_target system machine =
        .error (.unsupportedPlatform (lowerStr system) (lowerStr machine)) := by
  refine ⟨rfl, rfl, rfl, rfl, rfl, ?_⟩
  intro system machine h
  simp only [_resolve_target, h]

/-- Witness for C2: a concrete absent pair fails with that pair. -/
theorem resolve_target_table_spec_witness :
    targets.lookup (lowerStr "Plan9", lowerStr "mips") = none ∧
    _resolve_target "Plan9" "mips" = .error (.unsupportedPlatform "plan9" "mips") :=
  ⟨by decide, resolve_target_table_spec.2.2.2.2.2 "Plan9" "mips" (by decide)⟩

/-- Claim C3: the cached binary path is exactly
`CacheRoot/opennexus/bin/<version>/<target-triple>/<binary-name>`, and it is
a pure function of (CacheRoot, Version, PlatformTarget): recomputing it on
the same inputs yields the identical path. -/
theorem binary_path_pure (cache_root : Path) (ver : String) (t : String × String) :
    binary_path_of cache_root ver t
        = cache_root ++ ["opennexus", "bin", ver, t.1, t.2] ∧
    binary_path_of cache_root ver t = binary_path_of cache_root ver t := by
  refine ⟨?_, rfl⟩
  simp [binary_path_of, install_dir_of]

/-- Claim C4: cache hit. When the platform resolves to target `t` and the
cached binary path exists and is executable, `_ensure_managed_binary`
returns exactly that path, and its whole effect trace is the idempotent
`mkdir -p` of the install directory: no fetch, no write, no chmod. -/
theorem ensure_managed_binary_cache_hit (env : Env) (fs : FS) (t : String × String)
    (ht : _resolve_target env.system env.machine = .ok t)
    (hhit : (fs.pathExists (binary_path_of (_cache_root env) env.VERSION t)
        && fs.isExecutable (binary_path_of (_cache_root env) env.VERSION t)) = true) :
    _ensure_managed_binary env fs =
      (.ok (binary_path_of (_cache_root env) env.VERSION t),
       [Event.mkdirParents (install_dir_of (_cache_root env) env.VERSION t.1)]) := by
  unfold _ensure_managed_binary
  rw [ht]
  simp only [hhit, if_true]

/-- Witness for C4: concrete cache-hit state, evaluated. -/
theorem ensure_managed_binary_cache_hit_witness :
    _ensure_managed_binary baseEnv fsAllSame =
      (.ok ["home", "user", ".cache", "opennexus", "bin", "0.1.5",
        "x86_64-unknown-linux-gnu", "opennexus"],
       [Event.mkdirParents ["home", "user", ".cache", "opennexus", "bin", "0.1.5",
        "x86_64-unknown-linux-gnu"]]) :=
  ensure_managed_binary_cache_hit baseEnv fsAllSame
    ("x86_64-unknown-linux-gnu", "opennexus") rfl rfl

/-- Claim C5: `_download` performs one fetch of the URL; a non-200 status
fails with `downloadFailed` carrying the status and the URL with no second
fetch, while a 200 status writes the full response body to the
destination and succeeds. -/
theorem download_spec (env : Env) (url : String) (destination : Path) :
    ((env.http url).status ≠ 200 →
      _download env url destination =
        (.error (.downloadFailed (env.http url).status url),
         [Event.fetch url])) ∧
    ((env.http url).status = 200 →
      _download env url destination =
        (.ok (), [Event.fetch url,
          Event.writeBytes destination (env.http url).body])) := by
  constructor <;> intro h <;> simp [_download, h]

/-- Witness for C5: a 404 response fails without retry; a 200 response
writes the body. -/
theorem download_spec_witness :
    (baseEnv.http "http://example/a").status ≠ 200 ∧
    _download baseEnv "http://example/a" ["dest"] =
      (.error (.downloadFailed 404 "http://example/a"),
       [Event.fetch "http://example/a"]) ∧
    _download env200 "http://example/a" ["dest"] =
      (.ok (), [Event.fetch "http://example/a",
        Event.writeBytes ["dest"] [1, 2, 3]]) :=
  ⟨by decide,
   (download_spec baseEnv "http://example/a" ["dest"]).1 (by decide),
   (download_spec env200 "http://example/a" ["dest"]).2 rfl⟩

/-- Claim C6: whenever `main` reaches the exec step, the argument vector it
passes is exactly `"opennexus"` followed by `argv[1:]` unchanged, and the
binary of the exec call is the one resolved by the locator or, failing
that, by the provisioner. -/
theorem main_exec_argv (env : Env) (fs : FS) (c : ExecCall)
    (h : (main env fs).1 = .ok c) :
    c.args = "opennexus" :: env.argv.drop 1 ∧
    (_find_installed_binary env fs = some c.binary ∨
      (_find_installed_binary env fs = none ∧
        (_ensure_managed_binary env fs).1 = .ok c.binary)) := by
  unfold main at h
  cases hf : _find_installed_binary env fs with
  | some b =>
    rw [hf] at h
    simp only [Except.ok.injEq] at h
    subst h
    exact ⟨rfl, Or.inl rfl⟩
  | none =>
    rw [hf] at h
    simp only at h
    cases hr : (_ensure_managed_binary env fs).1 with
    | error e => rw [hr] at h; simp [Except.map] at h
    | ok b =>
      rw [hr] at h
      simp only [Except.map, Except.ok.injEq] at h
      subst h
      exact ⟨rfl, Or.inr ⟨rfl, rfl⟩⟩

/-- Witness for C6: a concrete run that execs the cached binary with the
substituted argument vector. -/
theorem main_exec_argv_witness :
    (main baseEnv fsAllSame).1 =
      .ok ⟨["home", "user", ".cache", "opennexus", "bin", "0.1.5",
        "x86_64-unknown-linux-gnu", "opennexus"],
        ["opennexus", "--version"]⟩ ∧
    (⟨["home", "user", ".cache", "opennexus", "bin", "0.1.5",
        "x86_64-unknown-linux-gnu", "opennexus"],
      ["opennexus", "--version"]⟩ : ExecCall).args
      = "opennexus" :: baseEnv.argv.drop 1 :=
  ⟨rfl,
   (main_exec_argv baseEnv fsAllSame
     ⟨["home", "user", ".cache", "opennexus", "bin", "0.1.5",
        "x86_64-unknown-linux-gnu", "opennexus"],
      ["opennexus", "--version"]⟩ rfl).1⟩

/-- Helper: the trace of one `_download` call contains its fetch of the URL. -/
theorem fetch_mem_download (env : Env) (url : String) (destination : Path) :
    Event.fetch url ∈ (_download env url destination).2 := by
  by_cases h : (env.http url).status = 200 <;> simp [_download, h]

/-- Claim C7: on a cache miss the provisioner fetches exactly the asset URL
`{RELEASE_BASE_URL}/opennexus-{target-triple}`, where the `.exe` suffix is
present exactly for the Windows table entry, and `RELEASE_BASE_URL` is the
`OPENNEXUS_RELEASE_BASE_URL` environment variable when present and
otherwise the default release URL derived from the version. -/
theorem provision_asset_url (env : Env) (fs : FS) (t : String × String)
    (ht : _resolve_target env.system env.machine = .ok t)
    (hmiss : (fs.pathExists (binary_path_of (_cache_root env) env.VERSION t)
        && fs.isExecutable (binary_path_of (_cache_root env) env.VERSION t)) = false) :
    Event.fetch (asset_url_of env t) ∈ (_ensure_managed_binary env fs).2 ∧
    asset_name_of "aarch64-apple-darwin" "opennexus"
      = "opennexus-aarch64-apple-darwin" ∧
    asset_name_of "x86_64-apple-darwin" "opennexus"
      = "opennexus-x86_64-apple-darwin" ∧
    asset_name_of "x86_64-unknown-linux-gnu" "opennexus"
      = "opennexus-x86_64-unknown-linux-gnu" ∧
    asset_name_of "aarch64-unknown-linux-gnu" "opennexus"
      = "opennexus-aarch64-unknown-linux-gnu" ∧
    asset_name_of "x86_64-pc-windows-msvc" "opennexus.exe"
      = "opennexus-x86_64-pc-windows-msvc.exe" ∧
    (∀ v, env.getenv "OPENNEXUS_RELEASE_BASE_URL" = some v →
      env.RELEASE_BASE_URL = v) ∧
    (env.getenv "OPENNEXUS_RELEASE_BASE_URL" = none →
      env.RELEASE_BASE_URL =
        "https://github.com/Alpha-Innovation-Labs/opennexus/releases/download/v"
          ++ env.VERSION) := by
  refine ⟨?_, rfl, rfl, rfl, rfl, rfl, ?_, ?_⟩
  · unfold _ensure_managed_binary
    rw [ht]
    simp only [hmiss, Bool.false_eq_true, if_false]
    have hmem := fetch_mem_download env (asset_url_of env t)
      (binary_path_of (_cache_root env) env.VERSION t)
    cases hd : _download env (asset_url_of env t)
        (binary_path_of (_cache_root env) env.VERSION t) with
    | mk r dev =>
      rw [hd] at hmem
      cases r <;> simp_all [List.mem_append]
  · intro v hv
    simp [Env.RELEASE_BASE_URL, hv]
  · intro hn
    simp [Env.RELEASE_BASE_URL, hn]

/-- Witness for C7: a Linux cache miss fetches the default asset URL. -/
theorem provision_asset_url_witness :
    _resolve_target baseEnv.system baseEnv.machine
      = .ok ("x86_64-unknown-linux-gnu", "opennexus") ∧
    Event.fetch (asset_url_of baseEnv ("x86_64-unknown-linux-gnu", "opennexus"))
      ∈ (_ensure_managed_binary baseEnv fsEmpty).2 ∧
    asset_url_of baseEnv ("x86_64-unknown-linux-gnu", "opennexus")
      = "https://github.com/Alpha-Innovation-Labs/opennexus/releases/download/v0.1.5/opennexus-x86_64-unknown-linux-gnu" :=
  ⟨rfl,
   (provision_asset_url baseEnv fsEmpty ("x86_64-unknown-linux-gnu", "opennexus")
     rfl rfl).1,
   rfl⟩

/-- Claim C8: on a cache miss answered with HTTP 200, the provisioner
writes the full response body to the destination path and, off Windows,
sets its permission bits to `0o755`; on Windows (`os.name == "nt"`) no
chmod event occurs. -/
theorem provision_download_permissions (env : Env) (fs : FS) (t : String × String)
    (ht : _resolve_target env.system env.machine = .ok t)
    (hmiss : (fs.pathExists (binary_path_of (_cache_root env) env.VERSION t)
        && fs.isExecutable (binary_path_of (_cache_root env) env.VERSION t)) = false)
    (h200 : (env.http (asset_url_of env t)).status = 200) :
    (env.osName ≠ "nt" → _ensure_managed_binary env fs =
      (.ok (binary_path_of (_cache_root env) env.VERSION t),
       [Event.mkdirParents (install_dir_of (_cache_root env) env.VERSION t.1),
        Event.notice (progress_notice env.VERSION t.1),
        Event.fetch (asset_url_of env t),
        Event.writeBytes (binary_path_of (_cache_root env) env.VERSION t)
          (env.http (asset_url_of env t)).body,
        Event.chmod (binary_path_of (_cache_root env) env.VERSION t) 0o755])) ∧
    (env.osName = "nt" → _ensure_managed_binary env fs =
      (.ok (binary_path_of (_cache_root env) env.VERSION t),
       [Event.mkdirParents (install_dir_of (_cache_root env) env.VERSION t.1),
        Event.notice (progress_notice env.VERSION t.1),
        Event.fetch (asset_url_of env t),
        Event.writeBytes (binary_path_of (_cache_root env) env.VERSION t)
          (env.http (asset_url_of env t)).body])) := by
  have hdl : _download env (asset_url_of env t)
      (binary_path_of (_cache_root env) env.VERSION t)
      = (.ok (), [Event.fetch (asset_url_of env t),
          Event.writeBytes (binary_path_of (_cache_root env) env.VERSION t)
            (env.http (asset_url_of env t)).body]) := by
    simp [_download, h200]
  constructor <;> intro hos <;>
    · unfold _ensure_managed_binary
      rw [ht]
      simp only [hmiss, Bool.false_eq_true, if_false, hdl]
      simp [hos]

/-- Witness for C8: a concrete Linux cache miss with a 200 response is
downloaded, written, and marked executable. -/
theorem provision_download_permissions_witness :
    env200.osName ≠ "nt" ∧
    _ensure_managed_binary env200 fsEmpty =
      (.ok (binary_path_of (_cache_root env200) env200.VERSION
          ("x86_64-unknown-linux-gnu", "opennexus")),
       [Event.mkdirParents (install_dir_of (_cache_root env200) env200.VERSION
          "x86_64-unknown-linux-gnu"),
        Event.notice (progress_notice env200.VERSION "x86_64-unknown-linux-gnu"),
        Event.fetch (asset_url_of env200 ("x86_64-unknown-linux-gnu", "opennexus")),
        Event.writeBytes (binary_path_of (_cache_root env200) env200.VERSION
          ("x86_64-unknown-linux-gnu", "opennexus"))
          (env200.http (asset_url_of env200
            ("x86_64-unknown-linux-gnu", "opennexus"))).body,
        Event.chmod (binary_path_of (_cache_root env200) env200.VERSION
          ("x86_64-unknown-linux-gnu", "opennexus")) 0o755]) :=
  ⟨by decide,
   (provision_download_permissions env200 fsEmpty
     ("x86_64-unknown-linux-gnu", "opennexus") rfl rfl rfl).1 (by decide)⟩

/-- Claim C9: an unsupported (system, machine) pair makes
`_ensure_managed_binary` fail with `unsupportedPlatform` carrying the
lower-cased pair, with an empty effect trace: no directory or file is
created before the failure. -/
theorem ensure_managed_unsupported (env : Env) (fs : FS)
    (h : targets.lookup (lowerStr env.system, lowerStr env.machine) = none) :
    _ensure_managed_binary env fs =
      (.error (.unsupportedPlatform (lowerStr env.system) (lowerStr env.machine)),
       []) := by
  unfold _ensure_managed_binary _resolve_target
  simp only [h]

/-- Witness for C9: a Plan9/mips run fails with no effects. -/
theorem ensure_managed_unsupported_witness :
    _ensure_managed_binary envPlan9 fsEmpty =
      (.error (.unsupportedPlatform "plan9" "mips"), []) :=
  ensure_managed_unsupported envPlan9 fsEmpty (by decide)

/-- Claim C10: an empty-string `XDG_CACHE_HOME` (respectively
`LOCALAPPDATA` on Windows) is treated as unset, falling back to
`~/.cache` (respectively `~/AppData/Local`), whereas
`OPENNEXUS_RELEASE_BASE_URL` is used verbatim whenever present, the empty
string included. -/
theorem env_empty_string_handling (env : Env) :
    (env.osName ≠ "nt" → env.getenv "XDG_CACHE_HOME" = some "" →
      _cache_root env = env.home ++ [".cache"]) ∧
    (env.osName = "nt" → env.getenv "LOCALAPPDATA" = some "" →
      _cache_root env = env.home ++ ["AppData", "Local"]) ∧
    (∀ v, env.getenv "OPENNEXUS_RELEASE_BASE_URL" = some v →
      env.RELEASE_BASE_URL = v) := by
  refine ⟨?_, ?_, ?_⟩
  · intro h1 h2
    simp [_cache_root, h1, h2]
  · intro h1 h2
    simp [_cache_root, h1, h2]
  · intro v hv
    simp [Env.RELEASE_BASE_URL, hv]

/-- Witness for C10: with every variable set to `""`, the cache root falls
back to the home-directory default on both OS families, while the release
base URL becomes the empty string verbatim. -/
theorem env_empty_string_handling_witness :
    envEmptyVars.getenv "XDG_CACHE_HOME" = some "" ∧
    _cache_root envEmptyVars = envEmptyVars.home ++ [".cache"] ∧
    _cache_root envWinEmpty = envWinEmpty.home ++ ["AppData", "Local"] ∧
    envEmptyVars.RELEASE_BASE_URL = "" :=
  ⟨rfl,
   (env_empty_string_handling envEmptyVars).1 (by decide) rfl,
   (env_empty_string_handling envWinEmpty).2.1 rfl rfl,
   (env_empty_string_handling envEmptyVars).2.2 "" rfl⟩

end Opennexus
